import Mathlib

/-!
Shallow embedding of the marbix-service job-orchestration core, translated
from the repository sources:

* `src/marbix/models/make_request.py` and
  `src/marbix/services/make_service.py` — the JobRecord store and its
  operations (`create_request_record`, `update_request_status`,
  `update_request_sources`);
* `src/marbix/api/v1/make.py` — the submission endpoint (`process_request`)
  and the legacy callback (`handle_callback`);
* `src/marbix/agents/researcher/researcher_agent.py` — the research client
  with its retry/backoff loop;
* `src/marbix/agents/strategy_generator/strategy_agent.py` — the synthesis
  client;
* `src/marbix/core/websocket.py` — the push notifier (`ConnectionManager`);
* `src/marbix/worker.py` — the ARQ worker pipeline (`generate_strategy`).

Machine integers do not occur on the modelled paths; times are modelled as
natural numbers (seconds since an arbitrary epoch), database sessions as
explicit record-list state, and the external collaborators (moderation
service, redis queue, Perplexity / ADK APIs, websockets) as explicit
environment parameters that enumerate the outcomes the Python code
distinguishes.
-/

namespace Marbix

/-! ## Job record store

`MakeRequest` (models/make_request.py): one row per request id with status,
payload, result, error, sources, retry counters, timestamps.  Timestamps are
naturals; nullable columns are `Option`. -/

structure JobRecord where
  request_id : String
  user_id : String
  status : String
  request_data : String
  result : Option String := none
  error : Option String := none
  sources : Option String := none
  retry_count : Nat := 0
  max_retries : Nat := 0
  created_at : Nat := 0
  completed_at : Option Nat := none
  callback_received_at : Option Nat := none
deriving Repr, DecidableEq

/-- The record constructed by `MakeService.create_request_record`
(make_service.py lines 42-49): fresh row with the given initial status,
`retry_count = 0`, `max_retries = settings.ARQ_MAX_TRIES`, and all nullable
fields unset. -/
def mkRequest (request_id user_id request_data initial_status : String)
    (max_tries now : Nat) : JobRecord :=
  { request_id := request_id
    user_id := user_id
    status := initial_status
    request_data := request_data
    retry_count := 0
    max_retries := max_tries
    created_at := now }

/-- Field updates applied by `MakeService.update_request_status`
(make_service.py lines 88-103) to the row it found: the status is written
unconditionally; `result` / `error` / `sources` are written only when the
corresponding argument is not `None`; when the new status is terminal
(`completed` / `failed` / `error`) both completion timestamps are set to
`utcnow`. -/
def update_request_status (req : JobRecord) (status : String)
    (result : Option String) (error : Option String) (sources : Option String)
    (now : Nat) : JobRecord :=
  let req := { req with status := status }
  let req := match result with
    | some r => { req with result := some r }
    | none => req
  let req := match error with
    | some e => { req with error := some e }
    | none => req
  let req := match sources with
    | some s => { req with sources := some s }
    | none => req
  if status = "completed" ∨ status = "failed" ∨ status = "error" then
    { req with completed_at := some now, callback_received_at := some now }
  else req

/-- Row update applied by `MakeService.update_request_sources`
(make_service.py lines 164-185): overwrites the sources column only. -/
def setSources (req : JobRecord) (sources : String) : JobRecord :=
  { req with sources := some sources }

/-! A database session is the list of rows, in insertion order.
`db.query(MakeRequest).filter(MakeRequest.request_id == request_id).first()`
is `findRequest`; a committed single-row update is `updateRequest`. -/

def findRequest (db : List JobRecord) (request_id : String) : Option JobRecord :=
  db.find? (fun r => r.request_id == request_id)

def updateRequest (db : List JobRecord) (request_id : String)
    (f : JobRecord → JobRecord) : List JobRecord :=
  db.map (fun r => if r.request_id == request_id then f r else r)

/-- `MakeService.create_request_record` (make_service.py lines 32-67) at the
database level: insert the fresh row.  The accompanying `ProcessingStatus`
response is built by the caller. -/
def create_request_record (db : List JobRecord)
    (request_id user_id request_data initial_status : String)
    (max_tries now : Nat) : List JobRecord :=
  db ++ [mkRequest request_id user_id request_data initial_status max_tries now]

/-- `MakeService.update_request_status` (make_service.py lines 69-113) at the
database level.  A missing row raises `ValueError` (modelled as `.error`);
otherwise the found row is updated and committed. -/
def update_request_status_db (db : List JobRecord) (request_id status : String)
    (result : Option String) (error : Option String) (sources : Option String)
    (now : Nat) : Except String (List JobRecord) :=
  match findRequest db request_id with
  | none => .error s!"Request {request_id} not found"
  | some _ => .ok (updateRequest db request_id
      (fun r => update_request_status r status result error sources now))

/-- `MakeService.update_request_sources` (make_service.py lines 164-185) at
the database level: returns `false` and leaves the session unchanged when the
row is missing. -/
def update_request_sources_db (db : List JobRecord) (request_id sources : String) :
    List JobRecord × Bool :=
  match findRequest db request_id with
  | none => (db, false)
  | some _ => (updateRequest db request_id (fun r => setSources r sources), true)

/-! ## Legacy callback endpoint

`handle_callback` (api/v1/make.py lines 183-244) parses the request body into
`(result, status, error)` and maps it onto `update_request_status`. -/

/-- The three body shapes `handle_callback` distinguishes: a JSON object
(fields read with `data.get("result", "")`, `data.get("status", "completed")`,
`data.get("error", None)`), any other JSON value (stringified), or a raw
non-JSON body.  An unparsable JSON body falls back to the raw-text branch. -/
inductive CallbackBody where
  | jsonDict (result : Option String) (status : Option String) (error : Option String)
  | jsonOther (s : String)
  | raw (s : String)
deriving Repr, DecidableEq

/-- The `(result, status, error)` triple extracted from the body
(api/v1/make.py lines 195-216). -/
def callbackFields : CallbackBody → String × String × Option String
  | .jsonDict result status error => (result.getD "", status.getD "completed", error)
  | .jsonOther s => (s, "completed", none)
  | .raw s => (s, "completed", none)

/-- `handle_callback` (api/v1/make.py lines 183-244): extract the fields and
call `update_request_status` with them (the `result` argument is always a
string, possibly empty). -/
def handle_callback (db : List JobRecord) (request_id : String)
    (body : CallbackBody) (now : Nat) : Except String (List JobRecord) :=
  let fields := callbackFields body
  update_request_status_db db request_id fields.2.1 (some fields.1) fields.2.2 none now

/-! ## Submission endpoint

`process_request` (api/v1/make.py lines 28-181). -/

/-- Outcome of `content_filter_service.check_business_request`: the
`success` flag (false when the filter service itself errored), the
`is_allowed` verdict and the violation `reason` read by the endpoint. -/
structure FilterResult where
  success : Bool
  is_allowed : Bool
  reason : String
deriving Repr, DecidableEq

/-- The `ProcessingStatus` response schema fields the endpoint fills in
(schemas/make_integration.py): request id, status, message and the optional
error detail. -/
structure ProcessingStatus where
  request_id : String
  status : String
  message : String
  error : Option String := none
deriving Repr, DecidableEq

/-- Outcome of the queue hand-off block (api/v1/make.py lines 103-133): the
redis pool creation (`create_pool`) and the job enqueue
(`redis_pool.enqueue_job`) each either succeed or raise; any raise lands in
the `except` branch at line 135. -/
inductive QueueOutcome where
  | ok
  | poolFail (msg : String)
  | enqueueFail (msg : String)
deriving Repr, DecidableEq

/-- `process_request` (api/v1/make.py lines 28-181), returning the HTTP
response together with the database state.  Websocket notifications touch the
push notifier, not the record store, and are modelled separately
(`ConnectionManager`); the `current_user.number` update touches the user
table, which is outside the job-record model.  Database commits themselves
are assumed to succeed (storage failure is the infrastructure-level case the
spec routes through the outer `except`, which returns status `error` with an
empty request id). -/
def process_request (flt : FilterResult) (q : QueueOutcome)
    (new_id user_id request_data : String) (max_tries : Nat)
    (db : List JobRecord) (now : Nat) : ProcessingStatus × List JobRecord :=
  if !flt.success then
    ({ request_id := ""
       status := "rejected"
       message := "Content filtering service temporarily unavailable. Please try again later." },
     db)
  else if !flt.is_allowed then
    ({ request_id := ""
       status := "rejected"
       message := "Your business request contains content that cannot be processed according to our platform policies. Please review and modify your business description."
       error := some ("Policy violation: " ++ flt.reason) },
     db)
  else
    let db := create_request_record db new_id user_id request_data "requested" max_tries now
    match q with
    | .ok =>
        let db := updateRequest db new_id
          (fun r => update_request_status r "processing" none none none now)
        ({ request_id := new_id
           status := "processing"
           message := "Strategy generation started. Connect to WebSocket for real-time updates." },
         db)
    | .poolFail msg =>
        let db := updateRequest db new_id
          (fun r => update_request_status r "error" none
            (some ("Failed to queue processing job: " ++ msg)) none now)
        ({ request_id := new_id
           status := "error"
           message := "Failed to queue your request for processing. Please try again later."
           error := some msg },
         db)
    | .enqueueFail msg =>
        let db := updateRequest db new_id
          (fun r => update_request_status r "processing" none none none now)
        let db := updateRequest db new_id
          (fun r => update_request_status r "error" none
            (some ("Failed to queue processing job: " ++ msg)) none now)
        ({ request_id := new_id
           status := "error"
           message := "Failed to queue your request for processing. Please try again later."
           error := some msg },
         db)

/-! ## Research client

`ResearcherAgent` (agents/researcher/researcher_agent.py). -/

def MAX_RETRIES : Nat := 3
def RETRY_DELAY : Nat := 5

/-- One attempt's outcome at the Perplexity HTTP call, as the retry loop in
`_make_research_request` (researcher_agent.py lines 140-223) distinguishes
them: a 200 response whose body parsed (content plus the optional `url`
field of each citation entry), HTTP 429, another non-200 status, an
`httpx.TimeoutException`, or any other exception raised while performing or
parsing the attempt (e.g. a 200 body of unexpected shape). -/
inductive ApiResponse where
  | ok (content : String) (citations : List (Option String))
  | rateLimited
  | httpError (code : Nat) (text : String)
  | timeout
  | failure (msg : String)
deriving Repr, DecidableEq

/-- The structured dictionary the research client returns (the
`model_used` / `completed_at` bookkeeping fields are omitted). -/
structure ResearchResult where
  success : Bool
  research_content : String := ""
  sources : List String := []
  error : Option String := none
deriving Repr, DecidableEq

/-- `ResearcherAgent._extract_sources` (lines 225-243): keep citation `url`
fields that are present, non-empty and start with `http`, capped at 20. -/
def extract_sources (citations : List (Option String)) : List String :=
  ((citations.filter (fun c => match c with
      | some u => !(u == "") && u.startsWith "http"
      | none => false)).map (fun c => c.getD "")).take 20

/-- The retry loop of `_make_research_request` (lines 140-223), `attempt`
ranging over `range(MAX_RETRIES)`.  Returns the structured result, the list
of `asyncio.sleep` delays performed (in order), and the number of HTTP
attempts made.  `remaining` is the number of loop iterations left
(`MAX_RETRIES - attempt` at every call site); falling off the end of the
loop returns the final all-retries-failed dictionary.  On 429 the backoff
`min(RETRY_DELAY * 2 ** attempt, 120)` is slept even on the last iteration
(the `continue` then exits the loop); on other failures the last iteration
returns without sleeping. -/
def research_loop (responses : Nat → ApiResponse) :
    Nat → Nat → ResearchResult × List Nat × Nat
  | _, 0 => ({ success := false, error := some "All retry attempts failed" }, [], 0)
  | attempt, remaining + 1 =>
    match responses attempt with
    | .ok content citations =>
        ({ success := true, research_content := content,
           sources := extract_sources citations }, [], 1)
    | .rateLimited =>
        let wait := min (RETRY_DELAY * 2 ^ attempt) 120
        let rest := research_loop responses (attempt + 1) remaining
        (rest.1, wait :: rest.2.1, rest.2.2 + 1)
    | .httpError code _ =>
        if remaining = 1 then
          ({ success := false, error := some s!"Research API error: {code}" }, [], 1)
        else
          let rest := research_loop responses (attempt + 1) remaining
          (rest.1, RETRY_DELAY :: rest.2.1, rest.2.2 + 1)
    | .timeout =>
        if remaining = 1 then
          ({ success := false, error := some "Request timeout after all retries" }, [], 1)
        else
          let rest := research_loop responses (attempt + 1) remaining
          (rest.1, RETRY_DELAY :: rest.2.1, rest.2.2 + 1)
    | .failure msg =>
        if remaining = 1 then
          ({ success := false, error := some s!"Unexpected error: {msg}" }, [], 1)
        else
          let rest := research_loop responses (attempt + 1) remaining
          (rest.1, RETRY_DELAY :: rest.2.1, rest.2.2 + 1)

/-- `_make_research_request`: run the loop from attempt 0. -/
def make_research_request (responses : Nat → ApiResponse) :
    ResearchResult × List Nat × Nat :=
  research_loop responses 0 MAX_RETRIES

/-- The synthetic environment of the spec's testable property: the API
answers HTTP 429 on every attempt. -/
def env429 : Nat → ApiResponse := fun _ => ApiResponse.rateLimited

/-- `ResearcherAgent.conduct_research` (lines 52-92): when
`_get_research_prompt` yields nothing (prompt missing, inactive, or its
lookup errored) return a structured failure; otherwise the retry-loop
result.  The sleep/attempt accounting is dropped at this level. -/
def conduct_research (prompt : Option String) (responses : Nat → ApiResponse)
    (prompt_name : String) : ResearchResult :=
  match prompt with
  | none =>
      { success := false,
        error := some ("Research prompt \x27" ++ prompt_name ++ "\x27 not found in database") }
  | some _ => (make_research_request responses).1

/-- `conduct_research_async` plus `ResearcherAgent.__init__` (lines 40-50 and
262-281): constructing the agent raises `ValueError` when
`settings.PERPLEXITY_API_KEY` is unset/empty (modelled as `.error`, the only
raising path); with a key configured, every provider outcome yields a
structured `.ok` result. -/
def conduct_research_async (api_key : String) (prompt : Option String)
    (responses : Nat → ApiResponse) (prompt_name : String) :
    Except String ResearchResult :=
  if api_key = "" then .error "PERPLEXITY_API_KEY is required"
  else .ok (conduct_research prompt responses prompt_name)

/-! ## Synthesis client

`StrategyGeneratorAgent` (agents/strategy_generator/strategy_agent.py). -/

/-- Outcome of the ADK invocation inside `generate_strategy` (lines 268-287):
the context creation / `agent.run_async` call raised, returned a result
without usable `content`, or returned content. -/
inductive AdkOutcome where
  | raised (msg : String)
  | noContent
  | content (strategy : String)
deriving Repr, DecidableEq

/-- The structured dictionary the synthesis client returns (bookkeeping
fields `model_used` / `generated_at` / `agent_framework` omitted). -/
structure StrategyResult where
  success : Bool
  strategy : Option String := none
  error : Option String := none
deriving Repr, DecidableEq

/-- `StrategyGeneratorAgent._validate_research_output` (lines 310-327):
requires a successful research result with non-empty content (the dict
membership checks for `success` / `research_content` always hold for the
structured record). -/
def validate_research_output (r : ResearchResult) : Bool :=
  r.success && !(r.research_content == "")

/-- `StrategyGeneratorAgent.generate_strategy` (lines 243-309): invalid
research output and every ADK failure mode return a structured failure; only
a result carrying content yields success. -/
def StrategyGeneratorAgent.generate_strategy (research_output : ResearchResult)
    (adk : AdkOutcome) (request_id : String) : StrategyResult :=
  if !(validate_research_output research_output) then
    { success := false, error := some "Invalid research output provided" }
  else
    match adk with
    | .raised msg =>
        { success := false,
          error := some s!"ADK strategy generation failed for {request_id}: {msg}" }
    | .noContent =>
        { success := false, error := some "ADK agent returned empty result" }
    | .content s => { success := true, strategy := some s }

/-- `generate_strategy_async` plus `StrategyGeneratorAgent.__init__` (lines
351-372 and 153-186): constructing the agent raises when Google ADK is not
importable or fails to initialise (modelled as `.error`, the only raising
path); with ADK available, every path returns a structured result. -/
def generate_strategy_async (adk_available : Bool)
    (research_output : ResearchResult) (adk : AdkOutcome) (request_id : String) :
    Except String StrategyResult :=
  if !adk_available then
    .error "Google ADK is required. Install with: pip install google-adk"
  else .ok (StrategyGeneratorAgent.generate_strategy research_output adk request_id)

/-! ## Push notifier

`ConnectionManager` (core/websocket.py). -/

/-- A JSON event, reduced to the fields `send_message` inspects: the
`result` payload (if any), the `timestamp` (if any), and the serialized size
of everything else — `len(str(message))` is modelled as `rest_size` plus the
length of the `result` field. -/
structure Msg where
  result : Option String := none
  timestamp : Option Nat := none
  rest_size : Nat := 0
deriving Repr, DecidableEq

/-- `len(str(message))` for a `Msg`. -/
def msgSize (m : Msg) : Nat :=
  m.rest_size + (match m.result with | some r => r.length | none => 0)

/-- The timestamp added at enqueue time when absent (websocket.py lines
61-63). -/
def stampMsg (m : Msg) (now : Nat) : Msg :=
  match m.timestamp with
  | none => { m with timestamp := some now }
  | some _ => m

/-- The truncated result text (websocket.py line 91): first 500000
characters plus the truncation notice carrying the original length. -/
def truncResult (r : String) : String :=
  r.take 500000 ++ "\n\n[Content truncated - original length: "
    ++ toString r.length ++ " characters]"

/-- The 1 MB size guard with 500000-character result truncation
(websocket.py lines 86-92), applied only when a live connection is about to
be used. -/
def truncateIfLarge (m : Msg) : Msg :=
  if msgSize m > 1024 * 1024 then
    match m.result with
    | some r =>
        if r.length > 500000 then { m with result := some (truncResult r) } else m
    | none => m
  else m

/-- The 50-message cache cap (websocket.py lines 71-72): after appending,
keep only the last 50 entries. -/
def trimCache (l : List Msg) : List Msg :=
  if l.length > 50 then l.drop (l.length - 50) else l

/-- Python-dict assignment on an association list: overwrite the first
occurrence in place if the key exists, else append. -/
def mapSet {α : Type} : List (String × α) → String → α → List (String × α)
  | [], k, v => [(k, v)]
  | p :: t, k, v => if p.1 == k then (k, v) :: t else p :: mapSet t k v

/-- Python-dict `del` on an association list. -/
def mapErase {α : Type} (m : List (String × α)) (k : String) : List (String × α) :=
  m.filter (fun p => !(p.1 == k))

/-- The notifier state (websocket.py lines 13-16): the live connection per
request id, the per-id cached event list, and the per-id connection
timestamp.  A websocket object is modelled by its receive log: `connect`
starts it with the replayed cache, and a delivered event appends to it. -/
structure ConnectionManager where
  active_connections : List (String × List Msg) := []
  cached_messages : List (String × List Msg) := []
  connection_timestamps : List (String × Nat) := []
deriving Repr, DecidableEq

/-- `ConnectionManager.connect` (websocket.py lines 18-43): register the
websocket and its timestamp, then replay the cached FIFO to it in order,
best effort — `replay_fail_at = some k` models the `k`-th replay send
raising, which stops the replay (`break`) but keeps the connection
registered. -/
def ConnectionManager.connect (mgr : ConnectionManager) (request_id : String)
    (now : Nat) (replay_fail_at : Option Nat) : ConnectionManager :=
  let cached := (mgr.cached_messages.lookup request_id).getD []
  let received := match replay_fail_at with
    | none => cached
    | some k => cached.take k
  { mgr with
    active_connections := mapSet mgr.active_connections request_id received
    connection_timestamps := mapSet mgr.connection_timestamps request_id now }

/-- `ConnectionManager.disconnect` (websocket.py lines 45-56): drop the live
connection and its timestamp; the cache is untouched.  A no-op when no
connection is registered. -/
def ConnectionManager.disconnect (mgr : ConnectionManager) (request_id : String) :
    ConnectionManager :=
  if (mgr.active_connections.lookup request_id).isSome then
    { mgr with
      active_connections := mapErase mgr.active_connections request_id
      connection_timestamps := mapErase mgr.connection_timestamps request_id }
  else mgr

/-- How one `send_message` call ended: delivered to the live connection,
cached with no live connection available, or delivery raised. -/
inductive SendOutcome where
  | delivered
  | cachedOnly
  | sendFailed
deriving Repr, DecidableEq

/-- `ConnectionManager.send_message` (websocket.py lines 58-111): stamp the
event with a timestamp if absent, append it to the per-id cache (trimmed to
the last 50), then, if a live connection exists, apply the oversize
truncation and attempt delivery (`delivery_ok`).  The truncation mutates the
same dict object that was appended to the cache, so whenever a live
connection exists the cached entry is the (possibly truncated) delivered
event.  A failed delivery calls `disconnect` — dropping the live reference
and its timestamp, keeping the cache — and re-raises. -/
def ConnectionManager.send_message (mgr : ConnectionManager) (request_id : String)
    (message : Msg) (delivery_ok : Bool) (now : Nat) :
    ConnectionManager × SendOutcome :=
  let stamped := stampMsg message now
  match mgr.active_connections.lookup request_id with
  | some log =>
      let final := truncateIfLarge stamped
      let cache := trimCache
        (((mgr.cached_messages.lookup request_id).getD []) ++ [final])
      let mgr' := { mgr with
        cached_messages := mapSet mgr.cached_messages request_id cache }
      if delivery_ok then
        let conns := mapSet mgr'.active_connections request_id (log ++ [final])
        ({ mgr' with active_connections := conns }, .delivered)
      else (mgr'.disconnect request_id, .sendFailed)
  | none =>
      let cache := trimCache
        (((mgr.cached_messages.lookup request_id).getD []) ++ [stamped])
      ({ mgr with cached_messages := mapSet mgr.cached_messages request_id cache },
       .cachedOnly)

/-- `ConnectionManager.cleanup_old_connections` (websocket.py lines 160-177):
collect the request ids whose *connection timestamp* is older than the
cutoff and delete their cache and timestamp entries.  Ids absent from
`connection_timestamps` are never considered. -/
def ConnectionManager.cleanup_old_connections (mgr : ConnectionManager)
    (now max_age_hours : Nat) : ConnectionManager :=
  let cutoff := now - max_age_hours * 3600
  let old := (mgr.connection_timestamps.filter (fun p => p.2 < cutoff)).map (fun p => p.1)
  { mgr with
    cached_messages := mgr.cached_messages.filter (fun p => !(old.contains p.1))
    connection_timestamps :=
      mgr.connection_timestamps.filter (fun p => !(old.contains p.1)) }

/-! ## Worker success path -/

/-- Steps 5-6 of the worker's success path (worker.py lines 182-228): persist
the full strategy with status `completed`, then send the completion event —
which already carries a timestamp — through the push notifier.  `rest_size`
is the serialized size of the completion message outside its `result`
field. -/
def worker_finalize (rec : JobRecord) (mgr : ConnectionManager)
    (request_id strategy : String) (rest_size : Nat) (delivery_ok : Bool)
    (now : Nat) : JobRecord × ConnectionManager × SendOutcome :=
  let updated := update_request_status rec "completed" (some strategy) none none now
  let msg : Msg := { result := some strategy, timestamp := some now, rest_size := rest_size }
  let sent := mgr.send_message request_id msg delivery_ok now
  (updated, sent.1, sent.2)

/-! ## Concrete states and reachability used by the claims -/

/-- A notifier state holding one cached event (timestamped 0) for request id
`r1`, cached while no client was connected: `send_message` never writes
`connection_timestamps`, so the id has no timestamp entry. -/
def c9_orphan_state : ConnectionManager :=
  ((ConnectionManager.mk [] [] []).send_message "r1" { rest_size := 10 } true 0).1

/-- A notifier state where a client connected at time 0, received one event,
and disconnected: `disconnect` deleted the id's timestamp entry while the
cache kept the event. -/
def c9_disconnected_state : ConnectionManager :=
  ((((ConnectionManager.mk [] [] []).connect "r1" 0 none).send_message
      "r1" { rest_size := 10 } true 0).1).disconnect "r1"

/-- A large strategy text (1100000 characters), exceeding both the 1 MB
serialized-size guard and the 500000-character result limit. -/
def bigStrategy : String := String.mk (List.replicate 1100000 'a')

/-- A notifier state with one live connection for `r1` that has received
nothing yet. -/
def c10mgr : ConnectionManager := { active_connections := [("r1", [])] }

/-- A record already at terminal status `completed` with a stored result. -/
def c1rec : JobRecord :=
  { mkRequest "r1" "u1" "payload" "completed" 3 0 with
      result := some "old strategy", completed_at := some 1,
      callback_received_at := some 1 }

/-- Job records reachable through the submission endpoint and the ARQ worker
pipeline alone (api/v1/make.py `process_request` plus worker.py
`generate_strategy`): record creation with status `requested` or
`processing`; the pre-enqueue mark to `processing` (make.py lines 107-111,
which runs only on the just-created, hence non-completed, record); sources
persistence (worker.py lines 123-141); the error write issued with a null
result by both the enqueue-failure path (make.py lines 139-144) and the
worker's exception handler (worker.py lines 258-265), neither of which runs
on a completed record; and the worker's success write that stores the
strategy together with status `completed` (worker.py lines 184-189). -/
inductive WorkerReach : JobRecord → Prop where
  | created (request_id user_id request_data initial_status : String)
      (max_tries now : Nat)
      (hinit : initial_status = "requested" ∨ initial_status = "processing") :
      WorkerReach (mkRequest request_id user_id request_data initial_status max_tries now)
  | processing_mark (r : JobRecord) (now : Nat)
      (hstatus : r.status ≠ "completed") (hr : WorkerReach r) :
      WorkerReach (update_request_status r "processing" none none none now)
  | sources_write (r : JobRecord) (s : String) (hr : WorkerReach r) :
      WorkerReach (setSources r s)
  | error_write (r : JobRecord) (msg : String) (now : Nat)
      (hstatus : r.status ≠ "completed") (hr : WorkerReach r) :
      WorkerReach (update_request_status r "error" none (some msg) none now)
  | success_write (r : JobRecord) (strategy : String) (now : Nat)
      (hr : WorkerReach r) :
      WorkerReach (update_request_status r "completed" (some strategy) none none now)

/-! ## Record-store lemmas -/

/-- The four fields of the row after `update_request_status`: id preserved,
status overwritten, result/error overwritten exactly when non-null. -/
theorem update_request_status_fields (req : JobRecord) (status : String)
    (result error sources : Option String) (now : Nat) :
    (update_request_status req status result error sources now).request_id = req.request_id ∧
    (update_request_status req status result error sources now).status = status ∧
    (update_request_status req status result error sources now).result
        = (match result with | some r => some r | none => req.result) ∧
    (update_request_status req status result error sources now).error
        = (match error with | some e => some e | none => req.error) := by
  unfold update_request_status
  rcases result with _ | r <;> rcases error with _ | e <;>
    rcases sources with _ | s <;>
    by_cases h : status = "completed" ∨ status = "failed" ∨ status = "error" <;>
    simp [h]

theorem findRequest_append_singleton (db : List JobRecord) (r : JobRecord)
    (h : findRequest db r.request_id = none) :
    findRequest (db ++ [r]) r.request_id = some r := by
  induction db with
  | nil => simp [findRequest]
  | cons a l ih =>
      unfold findRequest at *
      by_cases ha : a.request_id = r.request_id
      · rw [List.find?_cons_of_pos _ (by simpa using ha)] at h
        cases h
      · rw [List.find?_cons_of_neg _ (by simpa using ha)] at h
        rw [List.cons_append, List.find?_cons_of_neg _ (by simpa using ha)]
        exact ih h

theorem findRequest_updateRequest (db : List JobRecord) (id : String)
    (f : JobRecord → JobRecord) (hf : ∀ r, (f r).request_id = r.request_id) :
    findRequest (updateRequest db id f) id = (findRequest db id).map f := by
  induction db with
  | nil => simp [findRequest, updateRequest]
  | cons a l ih =>
      unfold findRequest updateRequest at *
      by_cases ha : a.request_id = id
      · simp only [List.map_cons,
          if_pos (show (a.request_id == id) = true from by simpa using ha)]
        rw [List.find?_cons_of_pos _ (by simp [hf a, ha]),
          List.find?_cons_of_pos _ (by simpa using ha)]
        simp
      · simp only [List.map_cons,
          if_neg (show ¬ (a.request_id == id) = true from by simpa using ha)]
        rw [List.find?_cons_of_neg _ (by simpa using ha),
          List.find?_cons_of_neg _ (by simpa using ha)]
        exact ih

theorem mem_updateRequest_self (db : List JobRecord) (id : String)
    (f : JobRecord → JobRecord) (r' : JobRecord)
    (hmem : r' ∈ updateRequest db id f) (hid : r'.request_id = id) :
    (∃ a, a ∈ db ∧ a.request_id = id ∧ r' = f a) := by
  obtain ⟨a, ha, hge⟩ := List.mem_map.mp hmem
  by_cases h : a.request_id = id
  · refine ⟨a, ha, h, ?_⟩
    rw [if_pos (by simpa using h)] at hge
    exact hge.symm
  · rw [if_neg (by simpa using h)] at hge
    subst hge
    exact absurd hid h

/-! ## C1 — terminal statuses and `update_request_status` -/

/-- C1: the claim states that for a record already in terminal status a
subsequent `update_request_status` write leaves `result`/`error` unchanged.
Counterexample: `c1rec` is terminal (`completed`) with `result = "old
strategy"`, yet a further call carrying a new result and error overwrites
both fields — the write is neither rejected nor a no-op. -/
theorem c1_counterexample :
    c1rec.status = "completed" ∧
    (update_request_status c1rec "completed" (some "new") (some "boom") none 2).result
        ≠ c1rec.result ∧
    (update_request_status c1rec "completed" (some "new") (some "boom") none 2).error
        ≠ c1rec.error := by
  refine ⟨rfl, ?_, ?_⟩ <;> decide

/-- C1 (amended): `update_request_status` has no terminal-status guard: for
every record — terminal or not — the status is overwritten unconditionally,
and `result`/`error` are overwritten exactly when the corresponding argument
is non-null (a call passing null for both is a no-op on those two fields,
which is the only sense in which a write can be a no-op). -/
theorem c1_amended (req : JobRecord) (status : String)
    (result error sources : Option String) (now : Nat) :
    (update_request_status req status result error sources now).status = status ∧
    (update_request_status req status result error sources now).result
        = (match result with | some r => some r | none => req.result) ∧
    (update_request_status req status result error sources now).error
        = (match error with | some e => some e | none => req.error) := by
  unfold update_request_status
  rcases result with _ | r <;> rcases error with _ | e <;>
    rcases sources with _ | s <;>
    by_cases h : status = "completed" ∨ status = "failed" ∨ status = "error" <;>
    simp [h]

/-! ## C2 — `result` non-null iff `status = completed` -/

/-- C2: the claim quantifies over all sequences of the record operations,
including `handle_callback`.  Counterexample: create a record (status
`requested`), then deliver a legacy callback whose JSON body carries
`status = "error"` together with a result string.  `handle_callback` maps
this onto `update_request_status`, which stores the result while writing the
non-`completed` status — afterwards `result` is non-null and `status ≠
"completed"`, so the biconditional fails. -/
theorem c2_counterexample :
    ∃ db', handle_callback
        (create_request_record [] "r1" "u1" "payload" "requested" 3 0)
        "r1" (CallbackBody.jsonDict (some "oops") (some "error") none) 5 = .ok db' ∧
      ∃ r, findRequest db' "r1" = some r ∧ r.result ≠ none ∧ r.status ≠ "completed" := by
  refine ⟨_, rfl, ?_⟩
  refine ⟨_, rfl, ?_, ?_⟩ <;> decide

/-- C2 (amended): the biconditional `result ≠ null ↔ status = completed`
holds for every record reachable through the submission endpoint and the
worker pipeline (`WorkerReach`): creation leaves `result` null at a
non-terminal status, the sources/processing/error writes never store a
result, and the only write that stores a result is the worker's success
write, which sets `status = completed` in the same commit.  The legacy
`handle_callback` path is excluded: it can store a result under any status
(see the counterexample). -/
theorem c2_worker_invariant (r : JobRecord) (hr : WorkerReach r) :
    r.result ≠ none ↔ r.status = "completed" := by
  induction hr with
  | created request_id user_id request_data initial_status max_tries now hinit =>
      rcases hinit with h | h <;> simp [mkRequest, h]
  | processing_mark r now hstatus hr ih =>
      have hres : r.result = none := by
        by_contra hcon
        exact hstatus (ih.mp hcon)
      simp [update_request_status, hres]
  | sources_write r s hr ih =>
      simpa [setSources] using ih
  | error_write r msg now hstatus hr ih =>
      have hres : r.result = none := by
        by_contra hcon
        exact hstatus (ih.mp hcon)
      simp [update_request_status, hres]
  | success_write r strategy now hr ih =>
      simp [update_request_status]

/-- Witness for `c2_worker_invariant`: the invariant evaluated on the
concrete record produced by create → processing mark → sources write →
success write. -/
theorem c2_worker_invariant_witness :
    WorkerReach (update_request_status
      (setSources
        (update_request_status (mkRequest "r1" "u1" "payload" "requested" 3 0)
          "processing" none none none 1)
        "https://example.com")
      "completed" (some "the strategy") none none 2) ∧
    ((update_request_status
      (setSources
        (update_request_status (mkRequest "r1" "u1" "payload" "requested" 3 0)
          "processing" none none none 1)
        "https://example.com")
      "completed" (some "the strategy") none none 2).result ≠ none ↔
     (update_request_status
      (setSources
        (update_request_status (mkRequest "r1" "u1" "payload" "requested" 3 0)
          "processing" none none none 1)
        "https://example.com")
      "completed" (some "the strategy") none none 2).status = "completed") := by
  have hreach : WorkerReach (update_request_status
      (setSources
        (update_request_status (mkRequest "r1" "u1" "payload" "requested" 3 0)
          "processing" none none none 1)
        "https://example.com")
      "completed" (some "the strategy") none none 2) := by
    exact WorkerReach.success_write _ _ _
      (WorkerReach.sources_write _ _
        (WorkerReach.processing_mark _ _ (by decide)
          (WorkerReach.created "r1" "u1" "payload" "requested" 3 0 (Or.inl rfl))))
  exact ⟨hreach, c2_worker_invariant _ hreach⟩

/-! ## C4 — moderation rejection creates no record -/

/-- C4: when the moderation check itself succeeded but flagged the payload
(`is_allowed = false`), `process_request` returns status `rejected` with an
empty `request_id` and the violation reason in the error detail, and the
record store is unchanged — no JobRecord is created for the submission. -/
theorem c4_moderation_rejected (flt : FilterResult) (q : QueueOutcome)
    (new_id user_id request_data : String) (max_tries : Nat)
    (db : List JobRecord) (now : Nat)
    (hsuccess : flt.success = true) (hflag : flt.is_allowed = false) :
    (process_request flt q new_id user_id request_data max_tries db now).1.status
        = "rejected" ∧
    (process_request flt q new_id user_id request_data max_tries db now).1.request_id
        = "" ∧
    (process_request flt q new_id user_id request_data max_tries db now).1.error
        = some ("Policy violation: " ++ flt.reason) ∧
    (process_request flt q new_id user_id request_data max_tries db now).2 = db := by
  simp [process_request, hsuccess, hflag]

/-- Witness for `c4_moderation_rejected` at a concrete flagged submission. -/
theorem c4_moderation_rejected_witness :
    (FilterResult.mk true false "weapons").success = true ∧
    (FilterResult.mk true false "weapons").is_allowed = false ∧
    ((process_request (FilterResult.mk true false "weapons") QueueOutcome.ok
        "r1" "u1" "payload" 3 [] 0).1.status = "rejected" ∧
     (process_request (FilterResult.mk true false "weapons") QueueOutcome.ok
        "r1" "u1" "payload" 3 [] 0).1.request_id = "" ∧
     (process_request (FilterResult.mk true false "weapons") QueueOutcome.ok
        "r1" "u1" "payload" 3 [] 0).1.error
        = some ("Policy violation: " ++ (FilterResult.mk true false "weapons").reason) ∧
     (process_request (FilterResult.mk true false "weapons") QueueOutcome.ok
        "r1" "u1" "payload" 3 [] 0).2 = []) :=
  ⟨rfl, rfl, c4_moderation_rejected _ _ _ _ _ _ _ _ rfl rfl⟩

/-! ## C5 — enqueue failure marks the record `error` -/

/-- C5: when moderation approves but the queue hand-off fails (pool creation
or enqueue raises), `process_request` leaves the created record at status
`error` (with the failure detail in its error column), returns status
`error` with the request id to the caller, and no row for that request id is
left at status `requested`. -/
theorem c5_enqueue_failure (flt : FilterResult) (q : QueueOutcome)
    (new_id user_id request_data msg : String) (max_tries : Nat)
    (db : List JobRecord) (now : Nat)
    (hsuccess : flt.success = true) (hallowed : flt.is_allowed = true)
    (hq : q = QueueOutcome.poolFail msg ∨ q = QueueOutcome.enqueueFail msg)
    (hfresh : findRequest db new_id = none) :
    (process_request flt q new_id user_id request_data max_tries db now).1.status
        = "error" ∧
    (process_request flt q new_id user_id request_data max_tries db now).1.request_id
        = new_id ∧
    (process_request flt q new_id user_id request_data max_tries db now).1.error
        = some msg ∧
    ((findRequest
        (process_request flt q new_id user_id request_data max_tries db now).2
        new_id).map (fun r => r.status)) = some "error" ∧
    (∀ r ∈ (process_request flt q new_id user_id request_data max_tries db now).2,
        r.request_id = new_id → r.status = "error") := by
  have hid : ∀ status res err src now',
      ∀ r : JobRecord, (update_request_status r status res err src now').request_id
        = r.request_id := by
    intro status res err src now' r
    exact (update_request_status_fields r status res err src now').1
  have hst : ∀ res err src now',
      ∀ r : JobRecord, (update_request_status r "error" res err src now').status
        = "error" := by
    intro res err src now' r
    exact (update_request_status_fields r "error" res err src now').2.1
  have hnew : findRequest
      (create_request_record db new_id user_id request_data "requested" max_tries now)
      new_id = some (mkRequest new_id user_id request_data "requested" max_tries now) := by
    unfold create_request_record
    exact findRequest_append_singleton db _ hfresh
  rcases hq with rfl | rfl
  · refine ⟨by simp [process_request, hsuccess, hallowed],
      by simp [process_request, hsuccess, hallowed],
      by simp [process_request, hsuccess, hallowed], ?_, ?_⟩
    · rw [show (process_request flt (QueueOutcome.poolFail msg)
          new_id user_id request_data max_tries db now).2 = updateRequest
            (create_request_record db new_id user_id request_data "requested" max_tries now)
            new_id (fun r => update_request_status r "error" none
              (some ("Failed to queue processing job: " ++ msg)) none now) from by
            simp [process_request, hsuccess, hallowed]]
      rw [findRequest_updateRequest _ _ _ (fun r => hid _ _ _ _ _ r), hnew]
      simp [hst]
    · intro r hr hrid
      rw [show (process_request flt (QueueOutcome.poolFail msg)
          new_id user_id request_data max_tries db now).2 = updateRequest
            (create_request_record db new_id user_id request_data "requested" max_tries now)
            new_id (fun r => update_request_status r "error" none
              (some ("Failed to queue processing job: " ++ msg)) none now) from by
            simp [process_request, hsuccess, hallowed]] at hr
      obtain ⟨a, _, _, rfl⟩ := mem_updateRequest_self _ _ _ _ hr hrid
      exact hst _ _ _ _ a
  · refine ⟨by simp [process_request, hsuccess, hallowed],
      by simp [process_request, hsuccess, hallowed],
      by simp [process_request, hsuccess, hallowed], ?_, ?_⟩
    · rw [show (process_request flt (QueueOutcome.enqueueFail msg)
          new_id user_id request_data max_tries db now).2 = updateRequest
            (updateRequest
              (create_request_record db new_id user_id request_data "requested" max_tries now)
              new_id (fun r => update_request_status r "processing" none none none now))
            new_id (fun r => update_request_status r "error" none
              (some ("Failed to queue processing job: " ++ msg)) none now) from by
            simp [process_request, hsuccess, hallowed]]
      rw [findRequest_updateRequest _ _ _ (fun r => hid _ _ _ _ _ r),
        findRequest_updateRequest _ _ _ (fun r => hid _ _ _ _ _ r), hnew]
      simp [hst]
    · intro r hr hrid
      rw [show (process_request flt (QueueOutcome.enqueueFail msg)
          new_id user_id request_data max_tries db now).2 = updateRequest
            (updateRequest
              (create_request_record db new_id user_id request_data "requested" max_tries now)
              new_id (fun r => update_request_status r "processing" none none none now))
            new_id (fun r => update_request_status r "error" none
              (some ("Failed to queue processing job: " ++ msg)) none now) from by
            simp [process_request, hsuccess, hallowed]] at hr
      obtain ⟨a, _, _, rfl⟩ := mem_updateRequest_self _ _ _ _ hr hrid
      exact hst _ _ _ _ a

/-- Witness for `c5_enqueue_failure` at a concrete approved submission whose
enqueue raises. -/
theorem c5_enqueue_failure_witness :
    (FilterResult.mk true true "").success = true ∧
    (FilterResult.mk true true "").is_allowed = true ∧
    (QueueOutcome.enqueueFail "redis down" = QueueOutcome.poolFail "redis down" ∨
      QueueOutcome.enqueueFail "redis down" = QueueOutcome.enqueueFail "redis down") ∧
    findRequest [] "r1" = none ∧
    ((process_request (FilterResult.mk true true "") (QueueOutcome.enqueueFail "redis down")
        "r1" "u1" "payload" 3 [] 0).1.status = "error" ∧
     (process_request (FilterResult.mk true true "") (QueueOutcome.enqueueFail "redis down")
        "r1" "u1" "payload" 3 [] 0).1.request_id = "r1" ∧
     (process_request (FilterResult.mk true true "") (QueueOutcome.enqueueFail "redis down")
        "r1" "u1" "payload" 3 [] 0).1.error = some "redis down" ∧
     ((findRequest
        (process_request (FilterResult.mk true true "") (QueueOutcome.enqueueFail "redis down")
          "r1" "u1" "payload" 3 [] 0).2 "r1").map (fun r => r.status)) = some "error" ∧
     (∀ r ∈ (process_request (FilterResult.mk true true "") (QueueOutcome.enqueueFail "redis down")
          "r1" "u1" "payload" 3 [] 0).2,
        r.request_id = "r1" → r.status = "error")) :=
  ⟨rfl, rfl, Or.inr rfl, rfl,
    c5_enqueue_failure _ _ _ _ _ _ _ _ _ rfl rfl (Or.inr rfl) rfl⟩

/-! ## Research-loop lemmas -/

theorem research_loop_attempts_le (responses : Nat → ApiResponse) :
    ∀ (remaining attempt : Nat),
      (research_loop responses attempt remaining).2.2 ≤ remaining := by
  intro remaining
  induction remaining with
  | zero => intro attempt; simp [research_loop]
  | succ n ih =>
      intro attempt
      rcases h : responses attempt with ⟨content, citations⟩ | _ | ⟨code, text⟩ | _ | msg
      · simp [research_loop, h]
      · have := ih (attempt + 1)
        simp [research_loop, h]
        omega
      · have := ih (attempt + 1)
        simp only [research_loop, h]
        split
        · simp
        · simp
          omega
      · have := ih (attempt + 1)
        simp only [research_loop, h]
        split
        · simp
        · simp
          omega
      · have := ih (attempt + 1)
        simp only [research_loop, h]
        split
        · simp
        · simp
          omega

theorem research_loop_error_isSome (responses : Nat → ApiResponse) :
    ∀ (remaining attempt : Nat),
      (research_loop responses attempt remaining).1.success = false →
      (research_loop responses attempt remaining).1.error.isSome = true := by
  intro remaining
  induction remaining with
  | zero => intro attempt _; simp [research_loop]
  | succ n ih =>
      intro attempt
      rcases h : responses attempt with ⟨content, citations⟩ | _ | ⟨code, text⟩ | _ | msg
      · simp [research_loop, h]
      · have := ih (attempt + 1)
        simpa [research_loop, h] using this
      · have := ih (attempt + 1)
        simp only [research_loop, h]
        split <;> simp_all
      · have := ih (attempt + 1)
        simp only [research_loop, h]
        split <;> simp_all
      · have := ih (attempt + 1)
        simp only [research_loop, h]
        split <;> simp_all

/-! ## C3 — research retry/backoff -/

/-- C3: the retry loop of the research client makes at most `MAX_RETRIES =
3` attempts for every environment; under synthetic all-429 responses it
makes exactly 3 attempts, sleeps `min(RETRY_DELAY * 2 ** attempt, 120)` for
each 429 — concretely the strictly increasing, 120-capped sequence `[5, 10,
20]` — and then returns the structured all-retries-failed result with
`success = false` instead of raising. -/
theorem c3_research_backoff :
    (∀ responses : Nat → ApiResponse, (make_research_request responses).2.2 ≤ 3) ∧
    (make_research_request env429).2.2 = 3 ∧
    (make_research_request env429).2.1 =
      [min (RETRY_DELAY * 2 ^ 0) 120, min (RETRY_DELAY * 2 ^ 1) 120,
       min (RETRY_DELAY * 2 ^ 2) 120] ∧
    (make_research_request env429).2.1 = [5, 10, 20] ∧
    List.Chain' (· < ·) (make_research_request env429).2.1 ∧
    (make_research_request env429).1.success = false ∧
    (make_research_request env429).1.error = some "All retry attempts failed" := by
  refine ⟨fun responses => research_loop_attempts_le responses 3 0, ?_, ?_, ?_, ?_, ?_, ?_⟩ <;>
    simp [make_research_request, MAX_RETRIES, research_loop, env429, RETRY_DELAY]

/-! ## C6 — stage clients return structured results -/

/-- C6: with the required configuration present (a non-empty API key for the
research client, Google ADK importable for the synthesis client), every
provider-level outcome — rate limiting, non-200 statuses, timeouts,
malformed responses, missing prompts, ADK failures — yields a structured
`.ok` result carrying a `success` flag, with an error message present
whenever `success = false`; no such failure surfaces as a raised
exception. -/
theorem c6_stage_clients_structured :
    (∀ (api_key : String) (prompt : Option String) (responses : Nat → ApiResponse)
        (prompt_name : String), api_key ≠ "" →
        conduct_research_async api_key prompt responses prompt_name
          = .ok (conduct_research prompt responses prompt_name) ∧
        ((conduct_research prompt responses prompt_name).success = false →
          (conduct_research prompt responses prompt_name).error.isSome = true)) ∧
    (∀ (research_output : ResearchResult) (adk : AdkOutcome) (request_id : String),
        generate_strategy_async true research_output adk request_id
          = .ok (StrategyGeneratorAgent.generate_strategy research_output adk request_id) ∧
        ((StrategyGeneratorAgent.generate_strategy research_output adk request_id).success
            = false →
          (StrategyGeneratorAgent.generate_strategy research_output adk request_id).error.isSome
            = true)) := by
  constructor
  · intro api_key prompt responses prompt_name hkey
    refine ⟨by simp [conduct_research_async, hkey], ?_⟩
    rcases prompt with _ | p
    · intro _; simp [conduct_research]
    · intro hfail
      have := research_loop_error_isSome responses MAX_RETRIES 0
      simp only [conduct_research, make_research_request] at hfail ⊢
      exact this hfail
  · intro research_output adk request_id
    refine ⟨by simp [generate_strategy_async], ?_⟩
    intro hfail
    unfold StrategyGeneratorAgent.generate_strategy at *
    by_cases hv : validate_research_output research_output
    · rcases adk with msg | _ | s <;> simp_all
    · simp_all

/-- Witness for `c6_stage_clients_structured`: both clients evaluated at
concrete inputs (a configured key, a missing prompt, a failed research
output with an empty ADK result), discharging every hypothesis. -/
theorem c6_stage_clients_structured_witness :
    ("k" ≠ "") ∧
    conduct_research_async "k" none env429 "perplexity-prompt"
      = .ok (conduct_research none env429 "perplexity-prompt") ∧
    (conduct_research none env429 "perplexity-prompt").success = false ∧
    (conduct_research none env429 "perplexity-prompt").error.isSome = true ∧
    generate_strategy_async true (ResearchResult.mk false "" [] none)
        AdkOutcome.noContent "r1"
      = .ok (StrategyGeneratorAgent.generate_strategy (ResearchResult.mk false "" [] none)
          AdkOutcome.noContent "r1") ∧
    (StrategyGeneratorAgent.generate_strategy (ResearchResult.mk false "" [] none)
        AdkOutcome.noContent "r1").error.isSome = true := by
  have h1 := c6_stage_clients_structured.1 "k" none env429 "perplexity-prompt" (by decide)
  have h2 := c6_stage_clients_structured.2 (ResearchResult.mk false "" [] none)
    AdkOutcome.noContent "r1"
  exact ⟨by decide, h1.1, by decide, h1.2 (by decide), h2.1, h2.2 (by decide)⟩

/-! ## Push-notifier lemmas -/

theorem mapSet_lookup {α : Type} (m : List (String × α)) (k : String) (v : α) :
    (mapSet m k v).lookup k = some v := by
  induction m with
  | nil => simp [mapSet, List.lookup]
  | cons p t ih =>
      rcases p with ⟨a, b⟩
      by_cases h : a = k
      · simp [mapSet, h, List.lookup]
      · have h1 : (a == k) = false := by simpa using h
        have h2 : (k == a) = false := by simpa using Ne.symm h
        simp [mapSet, h1, List.lookup, h2, ih]

theorem mapErase_lookup {α : Type} (m : List (String × α)) (k : String) :
    (mapErase m k).lookup k = none := by
  induction m with
  | nil => simp [mapErase, List.lookup]
  | cons p t ih =>
      rcases p with ⟨a, b⟩
      by_cases h : a = k
      · simpa [mapErase, h] using ih
      · have h1 : (a == k) = false := by simpa using h
        have h2 : (k == a) = false := by simpa using Ne.symm h
        simpa [mapErase, h1, List.lookup, h2] using ih

theorem disconnect_cached (mgr : ConnectionManager) (request_id : String) :
    (mgr.disconnect request_id).cached_messages = mgr.cached_messages := by
  unfold ConnectionManager.disconnect
  split <;> rfl

theorem stampMsg_timestamp (m : Msg) (now : Nat) :
    (stampMsg m now).timestamp
      = some (match m.timestamp with | some t => t | none => now) := by
  rcases h : m.timestamp with _ | t <;> simp [stampMsg, h]

theorem truncateIfLarge_timestamp (m : Msg) :
    (truncateIfLarge m).timestamp = m.timestamp := by
  unfold truncateIfLarge
  by_cases h : msgSize m > 1024 * 1024
  · rcases hr : m.result with _ | r
    · simp [h, hr]
    · by_cases h2 : r.length > 500000 <;> simp [h, hr, h2]
  · simp [h]

/-- Appending to a capped cache keeps a suffix of the previous cache, keeps
the new element last, and never exceeds 50 entries. -/
theorem trimCache_append (l : List Msg) (x : Msg) :
    ∃ tail, tail <:+ l ∧ trimCache (l ++ [x]) = tail ++ [x] ∧
      (tail ++ [x]).length ≤ 50 := by
  unfold trimCache
  by_cases h : (l ++ [x]).length > 50
  · have hlen : (l ++ [x]).length = l.length + 1 := by simp
    refine ⟨l.drop ((l ++ [x]).length - 50), List.drop_suffix _ _, ?_, ?_⟩
    · rw [if_pos h, List.drop_append_of_le_length (by omega)]
    · simp only [List.length_append, List.length_drop, List.length_cons,
        List.length_nil]
      omega
  · exact ⟨l, List.suffix_refl l, by rw [if_neg h], by simpa using Nat.le_of_not_lt h⟩

/-! ## C7 — send: cache first, cap 50, stamp, drop connection on failure -/

/-- C7: every `send_message` call appends the (stamped, and — when a live
connection exists — possibly truncated) event to the per-id cache, retaining
a suffix of the previous cache in order with the new event last and never
more than 50 entries; the cached event carries the original timestamp or,
when absent, the enqueue time; when no live connection exists the event is
cached anyway; and when live delivery fails the live connection reference is
dropped while the cache (with the freshly appended event) is retained. -/
theorem c7_send_cache_first (mgr : ConnectionManager) (request_id : String)
    (message : Msg) (delivery_ok : Bool) (now : Nat) :
    (∃ tail final,
      tail <:+ (mgr.cached_messages.lookup request_id).getD [] ∧
      ((mgr.send_message request_id message delivery_ok now).1.cached_messages.lookup
          request_id) = some (tail ++ [final]) ∧
      final.timestamp
        = some (match message.timestamp with | some t => t | none => now) ∧
      (tail ++ [final]).length ≤ 50) ∧
    ((mgr.active_connections.lookup request_id).isSome = true → delivery_ok = false →
      ((mgr.send_message request_id message delivery_ok now).1.active_connections.lookup
          request_id = none ∧
       (mgr.send_message request_id message delivery_ok now).2
          = SendOutcome.sendFailed)) ∧
    (mgr.active_connections.lookup request_id = none →
      (mgr.send_message request_id message delivery_ok now).2
        = SendOutcome.cachedOnly) := by
  rcases hconn : mgr.active_connections.lookup request_id with _ | log
  · obtain ⟨tail, hsuf, heq, hlen⟩ :=
      trimCache_append ((mgr.cached_messages.lookup request_id).getD [])
        (stampMsg message now)
    refine ⟨⟨tail, stampMsg message now, hsuf, ?_, stampMsg_timestamp message now, ?_⟩,
      ?_, ?_⟩
    · simp only [ConnectionManager.send_message, hconn]
      rw [mapSet_lookup, heq]
    · rw [← heq]
      exact heq ▸ hlen
    · intro hsome
      simp at hsome
    · intro _
      simp [ConnectionManager.send_message, hconn]
  · obtain ⟨tail, hsuf, heq, hlen⟩ :=
      trimCache_append ((mgr.cached_messages.lookup request_id).getD [])
        (truncateIfLarge (stampMsg message now))
    have hts : (truncateIfLarge (stampMsg message now)).timestamp
        = some (match message.timestamp with | some t => t | none => now) := by
      rw [truncateIfLarge_timestamp]
      exact stampMsg_timestamp message now
    refine ⟨⟨tail, truncateIfLarge (stampMsg message now), hsuf, ?_, hts, ?_⟩, ?_, ?_⟩
    · rcases delivery_ok with _ | _
      · simp only [ConnectionManager.send_message, hconn, Bool.false_eq_true, if_neg,
          ite_false]
        rw [disconnect_cached]
        rw [mapSet_lookup, heq]
      · simp only [ConnectionManager.send_message, hconn, ite_true]
        rw [mapSet_lookup, heq]
    · exact heq ▸ hlen
    · intro _ hfail
      subst hfail
      constructor
      · simp only [ConnectionManager.send_message, hconn, Bool.false_eq_true, ite_false]
        unfold ConnectionManager.disconnect
        rw [if_pos (by simp [hconn])]
        exact mapErase_lookup _ _
      · simp [ConnectionManager.send_message, hconn]
    · intro hnone
      simp at hnone

/-- Witness for `c7_send_cache_first` at two concrete inputs: a live
connection whose delivery fails (discharging the failure-branch hypotheses)
and a state with no live connection (discharging the cached-only
hypothesis). -/
theorem c7_send_cache_first_witness :
    (((ConnectionManager.mk [("r1", [])] [] []).active_connections.lookup "r1").isSome
        = true ∧
      ((ConnectionManager.mk [("r1", [])] [] []).send_message "r1"
          { rest_size := 7 } false 5).1.active_connections.lookup "r1" = none ∧
      ((ConnectionManager.mk [("r1", [])] [] []).send_message "r1"
          { rest_size := 7 } false 5).2 = SendOutcome.sendFailed) ∧
    ((ConnectionManager.mk [] [] []).active_connections.lookup "r1" = none ∧
      ((ConnectionManager.mk [] [] []).send_message "r1"
          { rest_size := 7 } false 5).2 = SendOutcome.cachedOnly) := by
  have h1 := (c7_send_cache_first (ConnectionManager.mk [("r1", [])] [] [])
      "r1" { rest_size := 7 } false 5).2.1 (by decide) rfl
  have h2 := (c7_send_cache_first (ConnectionManager.mk [] [] [])
      "r1" { rest_size := 7 } false 5).2.2 (by decide)
  exact ⟨⟨by decide, h1.1, h1.2⟩, by decide, h2⟩

/-! ## C8 — replay on reconnect, in order, before live events -/

/-- C8: a client connecting for a request id with `N` cached events (and no
replay failure) has exactly those `N` events replayed to it in their
original order, and a subsequently delivered live event is received after
all of them. -/
theorem c8_replay_before_live (mgr : ConnectionManager) (request_id : String)
    (t1 t2 : Nat) (e : Msg) :
    ((mgr.connect request_id t1 none).active_connections.lookup request_id)
      = some ((mgr.cached_messages.lookup request_id).getD []) ∧
    ((((mgr.connect request_id t1 none).send_message request_id e true
          t2).1.active_connections.lookup request_id)
      = some ((((mgr.cached_messages.lookup request_id).getD []))
          ++ [truncateIfLarge (stampMsg e t2)])) := by
  have hconn : ((mgr.connect request_id t1 none).active_connections.lookup request_id)
      = some ((mgr.cached_messages.lookup request_id).getD []) := by
    simp only [ConnectionManager.connect]
    exact mapSet_lookup _ _ _
  refine ⟨hconn, ?_⟩
  simp only [ConnectionManager.send_message, hconn, ite_true]
  exact mapSet_lookup _ _ _

/-! ## C9 — cleanup sweep misses orphaned caches -/

/-- C9: evaluation of `cleanup_old_connections` at the failing inputs.  An
event cached at time 0 while no client was connected leaves no entry in
`connection_timestamps` (`send_message` never writes it), and a client that
connected, received the event and disconnected has its timestamp entry
deleted by `disconnect`.  In both states a sweep at time 1000000 with the
default 24-hour max age — far beyond the event's age — leaves the cached
event in place, because the sweep only considers ids present in
`connection_timestamps`. -/
theorem c9_cleanup_misses_orphans :
    (c9_orphan_state.cached_messages.lookup "r1"
      = some [{ result := none, timestamp := some 0, rest_size := 10 }]) ∧
    c9_orphan_state.connection_timestamps = [] ∧
    ((c9_orphan_state.cleanup_old_connections 1000000 24).cached_messages.lookup "r1"
      = some [{ result := none, timestamp := some 0, rest_size := 10 }]) ∧
    (c9_disconnected_state.cached_messages.lookup "r1"
      = some [{ result := none, timestamp := some 0, rest_size := 10 }]) ∧
    c9_disconnected_state.connection_timestamps = [] ∧
    ((c9_disconnected_state.cleanup_old_connections 1000000 24).cached_messages.lookup
        "r1" = some [{ result := none, timestamp := some 0, rest_size := 10 }]) ∧
    0 + 24 * 3600 < 1000000 := by
  decide

/-! ## C10 — oversize result truncation and cache aliasing -/

/-- C10: when the worker finishes with a strategy whose completion message
serializes above 1 MB and whose result exceeds 500000 characters, and a live
connection exists, the JobRecord keeps the full strategy while the event
delivered to the live connection carries the truncated result (first 500000
characters plus the truncation notice); the cached entry is the same mutated
dict, so the cache also holds the truncated text. -/
theorem c10_truncated_delivery (rec : JobRecord) (mgr : ConnectionManager)
    (request_id strategy : String) (rest_size now : Nat) (log : List Msg)
    (hconn : mgr.active_connections.lookup request_id = some log)
    (hsize : rest_size + strategy.length > 1024 * 1024)
    (hlen : strategy.length > 500000) :
    (worker_finalize rec mgr request_id strategy rest_size true now).1.result
      = some strategy ∧
    ((worker_finalize rec mgr request_id strategy rest_size true
        now).2.1.active_connections.lookup request_id)
      = some (log ++ [Msg.mk (some (truncResult strategy)) (some now) rest_size]) ∧
    (∃ tail, ((worker_finalize rec mgr request_id strategy rest_size true
        now).2.1.cached_messages.lookup request_id)
      = some (tail ++ [Msg.mk (some (truncResult strategy)) (some now) rest_size])) := by
  have hstamp : stampMsg
      { result := some strategy, timestamp := some now, rest_size := rest_size } now
      = { result := some strategy, timestamp := some now, rest_size := rest_size } := rfl
  have htr : truncateIfLarge
      { result := some strategy, timestamp := some now, rest_size := rest_size }
      = Msg.mk (some (truncResult strategy)) (some now) rest_size := by
    unfold truncateIfLarge
    rw [if_pos (by simpa [msgSize] using hsize)]
    simp only []
    rw [if_pos hlen]
  refine ⟨?_, ?_, ?_⟩
  · simpa [worker_finalize] using
      (update_request_status_fields rec "completed" (some strategy) none none now).2.2.1
  · simp only [worker_finalize, ConnectionManager.send_message, hstamp, htr, hconn,
      ite_true]
    exact mapSet_lookup _ _ _
  · obtain ⟨tail, _, heq, _⟩ :=
      trimCache_append ((mgr.cached_messages.lookup request_id).getD [])
        (Msg.mk (some (truncResult strategy)) (some now) rest_size)
    refine ⟨tail, ?_⟩
    simp only [worker_finalize, ConnectionManager.send_message, hstamp, htr, hconn,
      ite_true]
    rw [mapSet_lookup, heq]

/-- Witness for `c10_truncated_delivery`: a 1100000-character strategy sent
to a live connection. -/
theorem c10_truncated_delivery_witness :
    c10mgr.active_connections.lookup "r1" = some [] ∧
    0 + bigStrategy.length > 1024 * 1024 ∧
    bigStrategy.length > 500000 ∧
    ((worker_finalize (mkRequest "r1" "u1" "payload" "processing" 3 0) c10mgr
        "r1" bigStrategy 0 true 7).1.result = some bigStrategy ∧
     ((worker_finalize (mkRequest "r1" "u1" "payload" "processing" 3 0) c10mgr
        "r1" bigStrategy 0 true 7).2.1.active_connections.lookup "r1")
       = some ([] ++ [Msg.mk (some (truncResult bigStrategy)) (some 7) 0]) ∧
     (∃ tail, ((worker_finalize (mkRequest "r1" "u1" "payload" "processing" 3 0) c10mgr
        "r1" bigStrategy 0 true 7).2.1.cached_messages.lookup "r1")
       = some (tail ++ [Msg.mk (some (truncResult bigStrategy)) (some 7) 0]))) := by
  have hlength : bigStrategy.length = 1100000 := by
    rw [bigStrategy, String.length]
    exact List.length_replicate 1100000 'a'
  refine ⟨rfl, ?_, ?_, ?_⟩
  · rw [hlength]; norm_num
  · rw [hlength]; norm_num
  · exact c10_truncated_delivery (mkRequest "r1" "u1" "payload" "processing" 3 0)
      c10mgr "r1" bigStrategy 0 7 [] rfl (by rw [hlength]; norm_num)
      (by rw [hlength]; norm_num)

end Marbix
